import Mathlib

/-!
Shallow embedding of the boto3-mocking library core
(src/lib/boto3_mocking/__init__.py).

The Python module defines a small stateful router class `PatchTarget`
holding `services` (dict from service name to handler callable),
`registrations` (dict from service name to the `FirstRegistration`
diagnostic exception stored at first successful registration) and
`allowed` (set of service names allowed to fall through to the real
factory).  We embed:

* dicts as association lists (`List (String × _)`, looked up with
  `List.lookup`), the set `allowed` as a `List String` queried with
  `List.contains`;
* handler callables and the real factory as Lean functions over an
  abstract keyword-argument type `κ` returning an abstract result
  type `β` (the Python code treats both as opaque);
* a method that mutates `self` and may raise as a function from the
  state to the new state paired with an `Option` error value
  (raising before any mutation returns the unchanged state);
* `dispatch`, which calls exactly one of the stored handler or the
  real factory (or raises), as a function returning its
  `Except`-result paired with the list of external calls it performs,
  so that "the real factory is never invoked" is directly statable.
-/

/-- `UnpatchedAccess(service)`: raised when a service is dispatched with
neither a registered handler nor allow-list membership. -/
structure UnpatchedAccess where
  service : String
deriving DecidableEq, Repr

/-- `FirstRegistration(service)`: the diagnostic exception stored in
`registrations` at the first successful registration of a service. -/
structure FirstRegistration where
  service : String
deriving DecidableEq, Repr

/-- `AlreadyPatched(service)` raised `from self.registrations.get(service)`:
the `cause` field models the Python `__cause__` set by the `raise ... from`
statement (`none` when `registrations.get` returned `None`). -/
structure AlreadyPatched where
  service : String
  cause : Option FirstRegistration
deriving DecidableEq, Repr

/-- One call made by `dispatch` to an external callable: either a stored
handler `self.services[service](**kwargs)` or the real factory
`self.real(service, **kwargs)`. -/
inductive FactoryCall (κ : Type) where
  | handler (service : String) (kwargs : κ)
  | real (service : String) (kwargs : κ)

/-- The `PatchTarget` router state.  `name` and `real` are set in
`__init__` (`self.name, self.real = name, getattr(boto3, name)`) and never
mutated; `services`, `registrations` and `allowed` start empty. -/
structure PatchTarget (κ β : Type) where
  name : String
  real : String → κ → β
  services : List (String × (κ → β))
  registrations : List (String × FirstRegistration)
  allowed : List String

namespace PatchTarget

/-- `PatchTarget.__init__(name)`: the real factory `getattr(boto3, name)`
is an external callable, passed here as a parameter. -/
def init (κ β : Type) (name : String) (real : String → κ → β) : PatchTarget κ β :=
  { name := name, real := real, services := [], registrations := [], allowed := [] }

/-- `PatchTarget.dispatch(service, **kwargs)`:

    if service in self.services:
        return self.services[service](**kwargs)
    if service in self.allowed:
        return self.real(service, **kwargs)
    raise UnpatchedAccess(service)

The second component records the external calls performed. -/
def dispatch {κ β : Type} (t : PatchTarget κ β) (service : String) (kwargs : κ) :
    Except UnpatchedAccess β × List (FactoryCall κ) :=
  match t.services.lookup service with
  | some handler => (.ok (handler kwargs), [.handler service kwargs])
  | none =>
    if t.allowed.contains service then
      (.ok (t.real service kwargs), [.real service kwargs])
    else
      (.error ⟨service⟩, [])

/-- `PatchTarget.register_handler(service, handler)`:

    if service in self.services:
        raise AlreadyPatched(service) from self.registrations.get(service)
    try:
        self.services[service] = handler
        raise FirstRegistration(service)
    except FirstRegistration as ex:
        self.registrations[service] = ex

The raise happens before any mutation, so on the error path the state is
returned unchanged.  On success both dicts gain an entry for `service`
(the key is absent from `services` on this path; `registrations[service]`
assignment overwrites, which the association-list cons also realises for
lookups). -/
def register_handler {κ β : Type} (t : PatchTarget κ β) (service : String) (handler : κ → β) :
    PatchTarget κ β × Option AlreadyPatched :=
  if (t.services.lookup service).isSome then
    (t, some { service := service, cause := t.registrations.lookup service })
  else
    ({ t with
        services := (service, handler) :: t.services,
        registrations := (service, { service := service }) :: t.registrations },
     none)

/-- Entry half of `PatchTarget.handler_for(service, handler)`, i.e. of
`with patch.dict(self.services, {service: handler}): yield`.
`patch.dict.__enter__` snapshots the whole dict (`original = in_dict.copy()`)
and then applies the update `{service: handler}`; the cons realises the
update for lookups.  Returns the updated state and the snapshot. -/
def handler_for_enter {κ β : Type} (t : PatchTarget κ β) (service : String) (handler : κ → β) :
    PatchTarget κ β × List (String × (κ → β)) :=
  ({ t with services := (service, handler) :: t.services }, t.services)

/-- Exit half of `PatchTarget.handler_for`: `patch.dict.__exit__` clears the
dict and re-fills it from the snapshot, i.e. replaces `services` wholesale
with the saved copy.  It runs on every exit path of the `with` block, so it
is applied here to an arbitrary state `t` reached by the scope body. -/
def handler_for_exit {κ β : Type} (t : PatchTarget κ β) (saved : List (String × (κ → β))) :
    PatchTarget κ β :=
  { t with services := saved }

end PatchTarget

/-- C1: if service `s` has a registered handler `h` in `services`, then
`dispatch(s, **kw)` returns exactly `h(**kw)` and performs a single
external call, to that handler — never to the stored real factory — with
no hypothesis on whether `s` is also in `allowed` (handler lookup takes
precedence over the allow-list unconditionally). -/
theorem dispatch_registered_handler {κ β : Type} (t : PatchTarget κ β)
    (s : String) (h : κ → β) (kw : κ)
    (hs : t.services.lookup s = some h) :
    t.dispatch s kw = (.ok (h kw), [.handler s kw]) := by
  simp [PatchTarget.dispatch, hs]

/-- Witness for C1 at a concrete router that has `"s3"` both registered
and allow-listed: the handler result is returned and the real factory is
not called. -/
theorem dispatch_registered_handler_witness :
    (PatchTarget.mk "client" (fun _ k => k) [("s3", fun k => k + 1)] [] ["s3"]
      : PatchTarget Nat Nat).dispatch "s3" 41
      = (.ok 42, [.handler "s3" 41]) :=
  dispatch_registered_handler
    (PatchTarget.mk "client" (fun _ k => k) [("s3", fun k => k + 1)] [] ["s3"])
    "s3" (fun k => k + 1) 41 (by simp [List.lookup])

/-- C4: if service `s` has no entry in `services` and is not in `allowed`,
`dispatch(s, **kw)` fails with `UnpatchedAccess(s)` and performs no
external call at all (neither the real factory nor any handler). -/
theorem dispatch_unpatched {κ β : Type} (t : PatchTarget κ β) (s : String) (kw : κ)
    (hs : t.services.lookup s = none) (ha : t.allowed.contains s = false) :
    t.dispatch s kw = (.error ⟨s⟩, []) := by
  have ha' : s ∉ t.allowed := by simpa using ha
  simp [PatchTarget.dispatch, hs, ha']

/-- Witness for C4: a router with a handler and allow-list entry for other
services raises `UnpatchedAccess("sqs")` without invoking anything. -/
theorem dispatch_unpatched_witness :
    (PatchTarget.mk "client" (fun _ k => k) [("s3", fun k => k + 1)] [] ["ec2"]
      : PatchTarget Nat Nat).dispatch "sqs" 7
      = (.error ⟨"sqs"⟩, []) :=
  dispatch_unpatched
    (PatchTarget.mk "client" (fun _ k => k) [("s3", fun k => k + 1)] [] ["ec2"])
    "sqs" 7 (by simp [List.lookup]) (by decide)

/-- C5: if service `s` has no entry in `services` but is in `allowed`,
`dispatch(s, **kw)` returns exactly `real(s, **kw)` and the single
external call made is to the stored real factory. -/
theorem dispatch_allowed_real {κ β : Type} (t : PatchTarget κ β) (s : String) (kw : κ)
    (hs : t.services.lookup s = none) (ha : t.allowed.contains s = true) :
    t.dispatch s kw = (.ok (t.real s kw), [.real s kw]) := by
  have ha' : s ∈ t.allowed := by simpa using ha
  simp [PatchTarget.dispatch, hs, ha']

/-- Witness for C5: an allow-listed, unregistered service falls through to
the real factory. -/
theorem dispatch_allowed_real_witness :
    (PatchTarget.mk "client" (fun _ k => k * 10) [("s3", fun k => k + 1)] [] ["ec2"]
      : PatchTarget Nat Nat).dispatch "ec2" 5
      = (.ok 50, [.real "ec2" 5]) :=
  dispatch_allowed_real
    (PatchTarget.mk "client" (fun _ k => k * 10) [("s3", fun k => k + 1)] [] ["ec2"])
    "ec2" 5 (by simp [List.lookup]) (by decide)

/-- `dispatch` reads only `services`, `allowed` and `real`: two states
agreeing on those three fields dispatch identically. -/
theorem dispatch_congr {κ β : Type} (t t' : PatchTarget κ β)
    (hserv : t'.services = t.services) (hall : t'.allowed = t.allowed)
    (hreal : t'.real = t.real) :
    ∀ s kw, t'.dispatch s kw = t.dispatch s kw := by
  intro s kw
  simp only [PatchTarget.dispatch, hserv, hall, hreal]

/-- C2: whatever state `t'` the scope body of `handler_for(s, h)` leaves
the router in (normal return or raised error — the exit action runs on
every path), applying the exit with the snapshot taken at entry from
state `t` restores `services` to exactly its entry value: the previous
handler for `s` is back if one existed, the key is absent if it was
absent; and since `handler_for` itself never touches `allowed` or `real`
(hypotheses on `t'`), `dispatch(s, ...)` afterwards behaves exactly as at
entry. -/
theorem handler_for_restores {κ β : Type} (t : PatchTarget κ β) (s : String) (h : κ → β)
    (t' : PatchTarget κ β)
    (hall : t'.allowed = t.allowed) (hreal : t'.real = t.real) :
    (t'.handler_for_exit (t.handler_for_enter s h).2).services = t.services
  ∧ (t'.handler_for_exit (t.handler_for_enter s h).2).services.lookup s
      = t.services.lookup s
  ∧ ∀ kw, (t'.handler_for_exit (t.handler_for_enter s h).2).dispatch s kw
      = t.dispatch s kw := by
  refine ⟨rfl, rfl, ?_⟩
  intro kw
  exact dispatch_congr t (t'.handler_for_exit (t.handler_for_enter s h).2) rfl hall hreal s kw

/-- Witness for C2 at a concrete router with a prior handler for `"s3"`,
where the intermediate state is the one produced by entering the
override. -/
theorem handler_for_restores_witness :
    (((PatchTarget.mk "client" (fun _ k => k * 10) [("s3", fun k => k + 1)] [] []
        : PatchTarget Nat Nat).handler_for_enter "s3" (fun k => k + 2)).1.handler_for_exit
      ((PatchTarget.mk "client" (fun _ k => k * 10) [("s3", fun k => k + 1)] [] []
        : PatchTarget Nat Nat).handler_for_enter "s3" (fun k => k + 2)).2).services
      = (PatchTarget.mk "client" (fun _ k => k * 10) [("s3", fun k => k + 1)] [] []
        : PatchTarget Nat Nat).services :=
  (handler_for_restores
    (PatchTarget.mk "client" (fun _ k => k * 10) [("s3", fun k => k + 1)] [] [])
    "s3" (fun k => k + 2)
    ((PatchTarget.mk "client" (fun _ k => k * 10) [("s3", fun k => k + 1)] [] []
        : PatchTarget Nat Nat).handler_for_enter "s3" (fun k => k + 2)).1
    rfl rfl).1

/-- C7: nested scoped overrides for the same service unwind in reverse
order of entry: with both scopes active `dispatch` uses the inner handler
`g2`; after the inner exit it uses the outer handler `g1`; after the
outer exit the router is back to its state before either entry (in
particular `services` is exactly the original mapping). -/
theorem nested_overrides_unwind {κ β : Type} (t : PatchTarget κ β) (s : String)
    (g1 g2 : κ → β) (kw : κ) :
    let e1 := t.handler_for_enter s g1
    let e2 := e1.1.handler_for_enter s g2
    let afterInner := e2.1.handler_for_exit e2.2
    let afterOuter := afterInner.handler_for_exit e1.2
    e2.1.dispatch s kw = (.ok (g2 kw), [.handler s kw])
  ∧ afterInner.dispatch s kw = (.ok (g1 kw), [.handler s kw])
  ∧ afterOuter.services = t.services ∧ afterOuter = t := by
  refine ⟨?_, ?_, rfl, rfl⟩ <;>
    simp [PatchTarget.dispatch, PatchTarget.handler_for_enter, PatchTarget.handler_for_exit,
      List.lookup]

/-- C3: after `register_handler(s, h1)` succeeds, a second call
`register_handler(s, h2)` leaves the state unchanged and fails with
`AlreadyPatched(s)` whose cause is the `FirstRegistration(s)` diagnostic
stored by the first successful registration. -/
theorem register_twice_already_patched {κ β : Type} (t : PatchTarget κ β) (s : String)
    (g1 g2 : κ → β) (t' : PatchTarget κ β)
    (hfirst : t.register_handler s g1 = (t', none)) :
    t'.register_handler s g2
      = (t', some { service := s, cause := some { service := s } }) := by
  unfold PatchTarget.register_handler at hfirst ⊢
  by_cases hc : (t.services.lookup s).isSome
  · simp [hc] at hfirst
  · simp [hc] at hfirst
    subst hfirst
    simp [List.lookup]

/-- Witness for C3: registering `"s3"` on a fresh router, then again. -/
theorem register_twice_already_patched_witness :
    (PatchTarget.mk "client" (fun _ k => k * 10) [("s3", fun k => k + 1)]
        [("s3", ⟨"s3"⟩)] [] : PatchTarget Nat Nat).register_handler "s3" (fun k => k + 2)
      = ((PatchTarget.mk "client" (fun _ k => k * 10) [("s3", fun k => k + 1)]
        [("s3", ⟨"s3"⟩)] [] : PatchTarget Nat Nat),
         some { service := "s3", cause := some { service := "s3" } }) :=
  register_twice_already_patched
    (PatchTarget.init Nat Nat "client" (fun _ k => k * 10))
    "s3" (fun k => k + 1) (fun k => k + 2)
    (PatchTarget.mk "client" (fun _ k => k * 10) [("s3", fun k => k + 1)]
        [("s3", ⟨"s3"⟩)] [])
    rfl

/-- C9: when service `s` already has an entry in `services`,
`register_handler(s, h)` raises before performing any mutation: the
returned state is exactly the input state — `services`, `registrations`
and `allowed` all unchanged, the existing handler not replaced — and the
error is `AlreadyPatched(s)`. -/
theorem register_handler_atomic_on_failure {κ β : Type} (t : PatchTarget κ β)
    (s : String) (h : κ → β)
    (hs : (t.services.lookup s).isSome = true) :
    t.register_handler s h
      = (t, some { service := s, cause := t.registrations.lookup s }) := by
  simp [PatchTarget.register_handler, hs]

/-- Witness for C9: a duplicate registration for `"s3"` keeps the old
handler (dispatch still returns its result) and the whole state. -/
theorem register_handler_atomic_on_failure_witness :
    (PatchTarget.mk "client" (fun _ k => k * 10) [("s3", fun k => k + 1)]
        [("s3", ⟨"s3"⟩)] ["ec2"] : PatchTarget Nat Nat).register_handler "s3" (fun k => k + 2)
      = ((PatchTarget.mk "client" (fun _ k => k * 10) [("s3", fun k => k + 1)]
          [("s3", ⟨"s3"⟩)] ["ec2"] : PatchTarget Nat Nat),
         some { service := "s3", cause := some { service := "s3" } }) :=
  register_handler_atomic_on_failure
    (PatchTarget.mk "client" (fun _ k => k * 10) [("s3", fun k => k + 1)]
        [("s3", ⟨"s3"⟩)] ["ec2"])
    "s3" (fun k => k + 2) (by simp [List.lookup])

/-- C10: when `s` is present in `services` but absent from
`registrations` — as after a scoped override with no prior permanent
registration — `register_handler(s, h)` still fails with
`AlreadyPatched(s)`, but `registrations.get(s)` is `None`, so the
causal context of the error is empty. -/
theorem register_after_override_cause_empty {κ β : Type} (t : PatchTarget κ β)
    (s : String) (h : κ → β)
    (hs : (t.services.lookup s).isSome = true)
    (hr : t.registrations.lookup s = none) :
    t.register_handler s h = (t, some { service := s, cause := none }) := by
  simp [PatchTarget.register_handler, hs, hr]

/-- Witness for C10: the state reached by entering a scoped override for
`"s3"` on a fresh router has `"s3"` in `services` but not in
`registrations`; registering then fails with an empty cause. -/
theorem register_after_override_cause_empty_witness :
    ((PatchTarget.init Nat Nat "client" (fun _ k => k * 10)).handler_for_enter
        "s3" (fun k => k + 2)).1.register_handler "s3" (fun k => k + 3)
      = (((PatchTarget.init Nat Nat "client" (fun _ k => k * 10)).handler_for_enter
          "s3" (fun k => k + 2)).1,
         some { service := "s3", cause := none }) :=
  register_after_override_cause_empty
    ((PatchTarget.init Nat Nat "client" (fun _ k => k * 10)).handler_for_enter
        "s3" (fun k => k + 2)).1
    "s3" (fun k => k + 3) (by simp [List.lookup]) rfl

/-!
Module-level state.  The Python module creates two router instances

    clients = PatchTarget('client')
    resources = PatchTarget('resource')

sets `boto3.boto3_mocking_patched = False`, and builds

    patching = patch.multiple(boto3, boto3_mocking_patched=True,
                              client=clients.dispatch,
                              resource=resources.dispatch)

`engage_patching()` calls `patching.start()` unless `patching_engaged()`
is already true; `patching_engaged()` reads the module attribute.  We
model the three patched attributes of the `boto3` module: the flag, and
what each factory entry point currently refers to (the original SDK
callable or a router's bound `dispatch`). -/

/-- What a `boto3` factory attribute (`boto3.client` / `boto3.resource`)
currently refers to. -/
inductive FactoryAttr where
  | realFactory
  | clientsDispatch
  | resourcesDispatch
deriving DecidableEq, Repr

/-- The three attributes of the `boto3` module touched by `patching`. -/
structure Boto3Module where
  boto3_mocking_patched : Bool
  client : FactoryAttr
  resource : FactoryAttr
deriving DecidableEq, Repr

/-- The module attributes as of import time:
`boto3.boto3_mocking_patched = False`, both factory entry points still
the original SDK callables. -/
def boto3Initial : Boto3Module :=
  { boto3_mocking_patched := false, client := .realFactory, resource := .realFactory }

/-- `patching.start()`: applies the `patch.multiple` redirection, setting
`boto3_mocking_patched` to `True` and both factory entry points to the
respective routers' `dispatch`. -/
def patching_start (g : Boto3Module) : Boto3Module :=
  { g with
      boto3_mocking_patched := true,
      client := .clientsDispatch,
      resource := .resourcesDispatch }

/-- `patching_engaged()`: `return boto3.boto3_mocking_patched`. -/
def patching_engaged (g : Boto3Module) : Bool :=
  g.boto3_mocking_patched

/-- `engage_patching()`: `if not patching_engaged(): patching.start()`.
The second component records whether `patching.start()` was invoked, so
that "does not apply the redirection a second time" is statable. -/
def engage_patching (g : Boto3Module) : Boto3Module × Bool :=
  if patching_engaged g then (g, false) else (patching_start g, true)

/-- C6: starting from the unengaged import-time state, one call to
`engage_patching` invokes `patching.start()`, making
`patching_engaged()` true and redirecting both factory entry points to
the routers' dispatch methods; a second call is a no-op: it leaves the
state (including the activation boolean) exactly as after the first call
and does not invoke `patching.start()` again. -/
theorem engage_patching_idempotent :
    (engage_patching boto3Initial).1
        = { boto3_mocking_patched := true,
            client := .clientsDispatch, resource := .resourcesDispatch }
  ∧ (engage_patching boto3Initial).2 = true
  ∧ patching_engaged (engage_patching boto3Initial).1 = true
  ∧ engage_patching (engage_patching boto3Initial).1
      = ((engage_patching boto3Initial).1, false) := by
  refine ⟨rfl, rfl, rfl, rfl⟩

/-- The two module-level router instances `clients` and `resources`,
name-addressable as entries of the module's `globals()`. -/
inductive RouterName where
  | clients
  | resources
deriving DecidableEq, Repr

/-- `KeyError` (or, for a module global that is not a `PatchTarget`, the
`AttributeError` from the missing `handler_for`) raised by
`globals()[target_name].handler_for(...)` when `target_name` does not
resolve to a known router instance; it propagates to the caller uncaught. -/
structure KeyErr where
  name : String
deriving DecidableEq, Repr

/-- `globals()[target_name]` as used by `enter_handlers`: only the names
bound to the two `PatchTarget` instances resolve to a router on which
`handler_for` exists; any other name fails (modelled as `none`). -/
def resolveTarget (name : String) : Option RouterName :=
  if name = "clients" then some .clients
  else if name = "resources" then some .resources
  else none

/-- The mutable state of the two module-level routers. -/
structure MockingState (κ β : Type) where
  clients : PatchTarget κ β
  resources : PatchTarget κ β

/-- Read one of the two routers by name. -/
def MockingState.getRouter {κ β : Type} (st : MockingState κ β) :
    RouterName → PatchTarget κ β
  | .clients => st.clients
  | .resources => st.resources

/-- Replace one of the two routers by name. -/
def MockingState.setRouter {κ β : Type} (st : MockingState κ β) :
    RouterName → PatchTarget κ β → MockingState κ β
  | .clients, t => { st with clients := t }
  | .resources, t => { st with resources := t }

/-- One context entered on the caller's `ExitStack` by
`stack.enter_context(router.handler_for(service, handler))`: which router
it was entered on, and the `services` snapshot its exit will restore. -/
structure ScopeEntry (κ β : Type) where
  router : RouterName
  saved : List (String × (κ → β))

/-- `enter_handlers(stack, service, **kwargs)`:

    for target_name, handler in kwargs.items():
        stack.enter_context(
            globals()[target_name].handler_for(service, handler)
        )

`kwargs` is embedded as the list of its `(target_name, handler)` items in
iteration order.  Each resolving pair enters `handler_for` on that router
and appends the entered context to the stack; the first non-resolving
name aborts the loop with the error, which is surfaced uncaught. -/
def enter_handlers {κ β : Type} (st : MockingState κ β) (stack : List (ScopeEntry κ β))
    (service : String) (kwargs : List (String × (κ → β))) :
    (MockingState κ β × List (ScopeEntry κ β)) × Option KeyErr :=
  match kwargs with
  | [] => ((st, stack), none)
  | (tname, handler) :: rest =>
    match resolveTarget tname with
    | none => ((st, stack), some ⟨tname⟩)
    | some r =>
      let entered := (st.getRouter r).handler_for_enter service handler
      enter_handlers (st.setRouter r entered.1) (stack ++ [⟨r, entered.2⟩]) service rest

/-- Auxiliary: `enter_handlers` reports an error exactly when some
`target_name` among the supplied pairs does not resolve to a router. -/
theorem enter_handlers_err_iff {κ β : Type} :
    ∀ (kwargs : List (String × (κ → β))) (st : MockingState κ β)
      (stack : List (ScopeEntry κ β)) (service : String),
    (enter_handlers st stack service kwargs).2.isSome
      ↔ ∃ p ∈ kwargs, resolveTarget p.1 = none := by
  intro kwargs
  induction kwargs with
  | nil => intro st stack service; simp [enter_handlers]
  | cons p rest ih =>
    intro st stack service
    obtain ⟨tname, handler⟩ := p
    cases hr : resolveTarget tname with
    | none => simp [enter_handlers, hr]
    | some r => simp [enter_handlers, hr, ih]

/-- Auxiliary: when every `target_name` resolves, `enter_handlers`
succeeds and appends to the scope stack one entered context per pair, in
iteration order, on the routers the names resolve to. -/
theorem enter_handlers_success {κ β : Type} :
    ∀ (kwargs : List (String × (κ → β))) (st : MockingState κ β)
      (stack : List (ScopeEntry κ β)) (service : String),
    (∀ p ∈ kwargs, (resolveTarget p.1).isSome = true) →
    (enter_handlers st stack service kwargs).2 = none
  ∧ ((enter_handlers st stack service kwargs).1.2).map ScopeEntry.router
      = stack.map ScopeEntry.router ++ kwargs.filterMap (fun p => resolveTarget p.1) := by
  intro kwargs
  induction kwargs with
  | nil => intro st stack service _; simp [enter_handlers]
  | cons p rest ih =>
    intro st stack service hall
    obtain ⟨tname, handler⟩ := p
    have hhd : (resolveTarget tname).isSome = true := hall _ (List.mem_cons_self _ _)
    obtain ⟨r, hr⟩ := Option.isSome_iff_exists.mp hhd
    have htl : ∀ p ∈ rest, (resolveTarget p.1).isSome = true :=
      fun q hq => hall q (List.mem_cons_of_mem _ hq)
    have := ih (MockingState.setRouter st r
        ((st.getRouter r).handler_for_enter service handler).1)
      (stack ++ [⟨r, ((st.getRouter r).handler_for_enter service handler).2⟩]) service htl
    simp only [enter_handlers, hr]
    refine ⟨this.1, ?_⟩
    rw [this.2]
    simp [hr]

/-- C8: `enter_handlers(stack, service, **kwargs)` fails with a
lookup/name error — surfaced to the caller, never caught — exactly when
some `target_name` among the pairs does not resolve to a known router
instance; when every name resolves it succeeds, entering on the supplied
scope stack one `handler_for(service, handler)` context per pair, in
order, on the router each name resolves to; and each resolving pair is
processed by entering `handler_for` on its router and pushing the entered
context onto the stack before the remaining pairs are handled. -/
theorem enter_handlers_resolution {κ β : Type} (st : MockingState κ β)
    (stack : List (ScopeEntry κ β)) (service : String)
    (kwargs : List (String × (κ → β))) :
    ((enter_handlers st stack service kwargs).2.isSome
        ↔ ∃ p ∈ kwargs, resolveTarget p.1 = none)
  ∧ ((∀ p ∈ kwargs, (resolveTarget p.1).isSome = true) →
        (enter_handlers st stack service kwargs).2 = none
      ∧ ((enter_handlers st stack service kwargs).1.2).map ScopeEntry.router
          = stack.map ScopeEntry.router
            ++ kwargs.filterMap (fun p => resolveTarget p.1))
  ∧ (∀ tname handler rest r, kwargs = (tname, handler) :: rest →
        resolveTarget tname = some r →
        enter_handlers st stack service kwargs
          = enter_handlers
              (st.setRouter r ((st.getRouter r).handler_for_enter service handler).1)
              (stack ++ [⟨r, ((st.getRouter r).handler_for_enter service handler).2⟩])
              service rest) := by
  refine ⟨enter_handlers_err_iff kwargs st stack service,
    enter_handlers_success kwargs st stack service, ?_⟩
  intro tname handler rest r hk hr
  subst hk
  simp [enter_handlers, hr]

/-- Witness for C8: entering overrides for `"s3"` on both routers via
their module-global names succeeds and pushes a context per router onto
the (initially empty) scope stack. -/
theorem enter_handlers_resolution_witness :
    (enter_handlers
        (MockingState.mk (PatchTarget.init Nat Nat "client" (fun _ k => k))
          (PatchTarget.init Nat Nat "resource" (fun _ k => k)))
        [] "s3" [("clients", fun k => k + 1), ("resources", fun k => k + 2)]).2 = none
  ∧ ((enter_handlers
        (MockingState.mk (PatchTarget.init Nat Nat "client" (fun _ k => k))
          (PatchTarget.init Nat Nat "resource" (fun _ k => k)))
        [] "s3" [("clients", fun k => k + 1), ("resources", fun k => k + 2)]).1.2).map
        ScopeEntry.router
      = ([] : List (ScopeEntry Nat Nat)).map ScopeEntry.router
        ++ [("clients", fun (k : Nat) => k + 1),
            ("resources", fun (k : Nat) => k + 2)].filterMap
            (fun p => resolveTarget p.1) :=
  (enter_handlers_resolution
    (MockingState.mk (PatchTarget.init Nat Nat "client" (fun _ k => k))
      (PatchTarget.init Nat Nat "resource" (fun _ k => k)))
    [] "s3" [("clients", fun k => k + 1), ("resources", fun k => k + 2)]).2.1
    (by decide)
